import Mathlib

/-!
Shallow embedding of the bsce-mgrep core (src/bsce_mgrep/domain/*) in Lean 4:
the where-clause tokenizer, recursive-descent parser and AST evaluator
(domain/where_parser.py), the pattern matcher (domain/matcher.py), the
composite filter (domain/filter.py) and the streaming pipeline
(domain/pipeline.py).  Python strings are modelled as Lean `String`
(sequences of characters), Python `int` as `Int`, Python `Result[T, str]`
(from the `result` library) as `Except String T`, and the value `None`
(which can enter a `MatchContext` through `re.Match.groupdict`) as an
explicit `null` variant / `Option.none`.
-/

namespace BsceMgrep

/-- A character escape for the single-quote character (code 39), used instead
of a quoted apostrophe literal. -/
def squote : Char := Char.ofNat 39

/-- A character escape for the backslash character (code 92). -/
def bslash : Char := Char.ofNat 92

/-- `domain/types.py`, class `Line`: a single input line.  `number` is the
1-indexed line number (a Python `int`), `content` the line text without the
trailing newline. -/
structure Line where
  number : Int
  content : String
deriving DecidableEq, Repr

/-- `Line.length` property: character count of the content. -/
def Line.length (l : Line) : Int := (l.content.length : Int)

/-- Sublist (substring) containment test on character lists; models the
Python `in` operator on strings (`text in content`). The empty needle is
contained in every haystack, as in Python. -/
def subListOf (needle : List Char) : List Char → Bool
  | [] => needle.isEmpty
  | c :: rest => needle.isPrefixOf (c :: rest) || subListOf needle rest

/-- `Line.contains`: Python `text in self.content`. -/
def Line.contains (l : Line) (text : String) : Bool :=
  subListOf text.data l.content.data

/-- `Line.startswith`: Python `self.content.startswith(text)`. -/
def Line.startswith (l : Line) (text : String) : Bool :=
  text.data.isPrefixOf l.content.data

/-- `Line.endswith`: Python `self.content.endswith(text)`. -/
def Line.endswith (l : Line) (text : String) : Bool :=
  text.data.isSuffixOf l.content.data

/-- `domain/types.py`, class `MatchContext`.  The Python field is annotated
`groups: dict[str, str]`, but `_create_regex_matcher` stores
`match.groupdict()` in it, whose values can be `None` (for declared named
groups that did not participate in the match); the values are therefore
modelled as `Option String`, with `none` standing for Python `None`.
The dict is modelled as an association list with unique keys (regex group
names are unique). -/
structure MatchContext where
  line : Line
  groups : List (String × Option String)
deriving DecidableEq, Repr

/-- The runtime values the evaluator can produce.  `_evaluate_node` is
annotated `-> bool | int | str`, but `GroupAccess` can return a `None`
stored in `MatchContext.groups`, hence the `null` variant. -/
inductive Value where
  | int : Int → Value
  | str : String → Value
  | bool : Bool → Value
  | null : Value
deriving DecidableEq, Repr

/-- AST node type from `domain/where_parser.py` (the closed union
`Literal | Attribute | MethodCall | GroupAccess | BinaryOp | UnaryOp`).
Operators are kept as strings exactly as in the source. -/
inductive ASTNode where
  | Literal : Value → ASTNode
  | Attribute : String → String → ASTNode
  | MethodCall : String → String → List String → ASTNode
  | GroupAccess : String → ASTNode
  | BinaryOp : ASTNode → String → ASTNode → ASTNode
  | UnaryOp : String → ASTNode → ASTNode
deriving DecidableEq, Repr

/-- Python truthiness `bool(x)` restricted to the runtime value union:
a boolean is itself, an integer is truthy iff nonzero, text is truthy iff
non-empty, and `None` is falsy. -/
def pyTruthy : Value → Bool
  | .int n => decide (n ≠ 0)
  | .str s => decide (s ≠ "")
  | .bool b => b
  | .null => false

/-- The numeric view Python uses for `<`-style comparisons and `==`:
`bool` is a subtype of `int` (False = 0, True = 1); `str` and `None`
have no numeric view. -/
def numView : Value → Option Int
  | .int n => some n
  | .bool b => some (if b then 1 else 0)
  | _ => none

/-- The Python type name of a runtime value, as it appears in `TypeError`
messages raised by order comparisons. -/
def pyTypeName : Value → String
  | .int _ => "int"
  | .str _ => "str"
  | .bool _ => "bool"
  | .null => "NoneType"

/-- Strict lexicographic order on character lists by code point; models
Python string `<`. -/
def listLt : List Char → List Char → Bool
  | [], [] => false
  | [], _ :: _ => true
  | _ :: _, [] => false
  | a :: as, b :: bs =>
    if a.val < b.val then true
    else if b.val < a.val then false
    else listLt as bs

/-- Python `==` on the runtime value union: numbers (with `bool` viewed as
0/1) compare numerically, strings compare by content, `None` equals only
`None`, and any other cross-type pair is unequal without error. -/
def pyEq : Value → Value → Bool
  | a, b =>
    match numView a, numView b with
    | some x, some y => decide (x = y)
    | _, _ =>
      match a, b with
      | .str s, .str t => decide (s = t)
      | .null, .null => true
      | _, _ => false

/-- Python order comparison (`<`, `>`, `<=`, `>=`): numbers (with `bool`
viewed as 0/1) compare numerically, strings compare lexicographically, and
any other pair raises a `TypeError` — modelled as an `Except.error` whose
message mirrors the Python one. -/
def pyOrderCmp (opName : String) (icmp : Int → Int → Bool)
    (scmp : List Char → List Char → Bool) (a b : Value) : Except String Value :=
  match numView a, numView b with
  | some x, some y => .ok (.bool (icmp x y))
  | _, _ =>
    match a, b with
    | .str s, .str t => .ok (.bool (scmp s.data t.data))
    | _, _ =>
      .error (String.mk [squote] ++ opName ++ String.mk [squote] ++
        " not supported between instances of " ++ String.mk [squote] ++
        pyTypeName a ++ String.mk [squote] ++ " and " ++ String.mk [squote] ++
        pyTypeName b ++ String.mk [squote])

/-- The operator dispatch of the `BinaryOp` case of `_evaluate_node`
(`match op` over the operator string).  Comparison operators delegate to
Python rich comparison; `and`/`or` are `bool(left_val) and bool(right_val)`
and `bool(left_val) or bool(right_val)` on already-evaluated operands. -/
def applyBinOp (op : String) (lv rv : Value) : Except String Value :=
  if op = ">" then
    pyOrderCmp ">" (fun x y => decide (x > y)) (fun s t => listLt t s) lv rv
  else if op = "<" then
    pyOrderCmp "<" (fun x y => decide (x < y)) (fun s t => listLt s t) lv rv
  else if op = ">=" then
    pyOrderCmp ">=" (fun x y => decide (x ≥ y)) (fun s t => !listLt s t) lv rv
  else if op = "<=" then
    pyOrderCmp "<=" (fun x y => decide (x ≤ y)) (fun s t => !listLt t s) lv rv
  else if op = "==" then .ok (.bool (pyEq lv rv))
  else if op = "!=" then .ok (.bool (!pyEq lv rv))
  else if op = "and" then .ok (.bool (pyTruthy lv && pyTruthy rv))
  else if op = "or" then .ok (.bool (pyTruthy lv || pyTruthy rv))
  else .error ("Unknown binary operator: " ++ op)

/-- `_evaluate_node` from `domain/where_parser.py`: recursively evaluate an
AST node against a match context.  Python exceptions (`ValueError` raised by
the function itself, `TypeError` raised by cross-type order comparisons) are
modelled as `Except.error` carrying the exception message. -/
def evaluateNode : ASTNode → MatchContext → Except String Value
  | .Literal v, _ => .ok v
  | .Attribute obj attr, ctx =>
    if obj = "line" then
      if attr = "length" then .ok (.int ctx.line.length)
      else if attr = "number" then .ok (.int ctx.line.number)
      else if attr = "content" then .ok (.str ctx.line.content)
      else .error ("Unknown line attribute: " ++ attr)
    else .error ("Unknown object: " ++ obj)
  | .MethodCall obj method args, ctx =>
    if obj = "line" then
      if method = "contains" then
        match args with
        | [a] => .ok (.bool (ctx.line.contains a))
        | _ => .error "contains() requires exactly 1 argument"
      else if method = "startswith" then
        match args with
        | [a] => .ok (.bool (ctx.line.startswith a))
        | _ => .error "startswith() requires exactly 1 argument"
      else if method = "endswith" then
        match args with
        | [a] => .ok (.bool (ctx.line.endswith a))
        | _ => .error "endswith() requires exactly 1 argument"
      else .error ("Unknown line method: " ++ method)
    else .error ("Unknown object: " ++ obj)
  | .GroupAccess name, ctx =>
    match ctx.groups.lookup name with
    | some (some s) => .ok (.str s)
    | some none => .ok .null
    | none => .error ("Regex group not found: " ++ name)
  | .BinaryOp left op right, ctx =>
    match evaluateNode left ctx with
    | .error e => .error e
    | .ok lv =>
      match evaluateNode right ctx with
      | .error e => .error e
      | .ok rv => applyBinOp op lv rv
  | .UnaryOp op operand, ctx =>
    match evaluateNode operand ctx with
    | .error e => .error e
    | .ok v =>
      if op = "not" then .ok (.bool (!pyTruthy v))
      else .error ("Unknown unary operator: " ++ op)

/-- Python `\w` (ASCII): the word characters used by the `\b` boundaries in
the `and`/`or`/`not` token patterns. -/
def isWordChar (c : Char) : Bool := c.isAlpha || c.isDigit || c = '_'

/-- Python `\s` (ASCII): the characters matched by the WHITESPACE pattern. -/
def pyIsSpace (c : Char) : Bool :=
  c = ' ' || c = '\t' || c = '\n' || c = '\x0d' || c = '\x0b' || c = '\x0c'

/-- The NUMBER pattern `-?\d+` matched greedily at the start of `rest`:
returns the length of the match, or `none`. -/
def tryNumber (rest : List Char) : Option Nat :=
  match rest with
  | '-' :: cs =>
    let n := (cs.takeWhile Char.isDigit).length
    if n = 0 then none else some (n + 1)
  | cs =>
    let n := (cs.takeWhile Char.isDigit).length
    if n = 0 then none else some n

/-- The body-and-closing-quote part of the STRING pattern
`"([^"\x5c]|\x5c.)*"` (and its single-quote twin): given the characters
after the opening quote `q`, returns the number of characters up to and
including the closing quote.  A backslash must be followed by a character
other than newline (regex `.` does not match newline); any other character,
newline included, is consumed as-is; the first unescaped `q` closes. -/
def scanStr (q : Char) : List Char → Option Nat
  | [] => none
  | c :: rest =>
    if c = q then some 1
    else if c = bslash then
      match rest with
      | [] => none
      | d :: rest2 =>
        if d = '\n' then none
        else (scanStr q rest2).map (· + 2)
    else (scanStr q rest).map (· + 1)

/-- The STRING pattern: a double- or single-quoted string literal matched at
the start of `rest`; returns the total match length. -/
def tryString (rest : List Char) : Option Nat :=
  match rest with
  | c :: cs =>
    if c = '"' || c = squote then (scanStr c cs).map (· + 1)
    else none
  | [] => none

/-- A keyword pattern `\bKW\b` (`and`, `or`, `not`) matched at the current
position: `prev` is the character just before the position (`none` at the
start of the string). Both boundaries must hold. -/
def tryKeyword (kw : List Char) (prev : Option Char) (rest : List Char) : Bool :=
  (match prev with
   | none => true
   | some c => !isWordChar c) &&
  kw.isPrefixOf rest &&
  (match rest.drop kw.length with
   | [] => true
   | c :: _ => !isWordChar c)

/-- The IDENT pattern `[a-zA-Z_][a-zA-Z0-9_]*` matched greedily at the start
of `rest`; returns the match length. -/
def tryIdent (rest : List Char) : Option Nat :=
  match rest with
  | c :: cs =>
    if c.isAlpha || c = '_' then some (1 + (cs.takeWhile isWordChar).length)
    else none
  | [] => none

/-- One attempt of the compiled alternation `TOKEN_RE` at a single position:
alternatives are tried in the order of `TOKEN_PATTERNS` (NUMBER, STRING,
`>=`, `<=`, `==`, `!=`, `>`, `<`, `and`, `or`, `not`, IDENT, `(`, `)`, `.`,
`,`, WHITESPACE), the first that matches wins.  Returns the token kind and
the length of the matched text. -/
def matchAtAux (prev : Option Char) (rest : List Char) : Option (String × Nat) :=
  match tryNumber rest with
  | some n => some ("NUMBER", n)
  | none =>
  match tryString rest with
  | some n => some ("STRING", n)
  | none =>
  if ['>', '='].isPrefixOf rest then some ("GTE", 2)
  else if ['<', '='].isPrefixOf rest then some ("LTE", 2)
  else if ['=', '='].isPrefixOf rest then some ("EQ", 2)
  else if ['!', '='].isPrefixOf rest then some ("NEQ", 2)
  else if ['>'].isPrefixOf rest then some ("GT", 1)
  else if ['<'].isPrefixOf rest then some ("LT", 1)
  else if tryKeyword ['a', 'n', 'd'] prev rest then some ("AND", 3)
  else if tryKeyword ['o', 'r'] prev rest then some ("OR", 2)
  else if tryKeyword ['n', 'o', 't'] prev rest then some ("NOT", 3)
  else
    match tryIdent rest with
    | some n => some ("IDENT", n)
    | none =>
      if ['('].isPrefixOf rest then some ("LPAREN", 1)
      else if [')'].isPrefixOf rest then some ("RPAREN", 1)
      else if ['.'].isPrefixOf rest then some ("DOT", 1)
      else if [','].isPrefixOf rest then some ("COMMA", 1)
      else
        match rest with
        | c :: cs =>
          if pyIsSpace c then some ("WHITESPACE", 1 + (cs.takeWhile pyIsSpace).length)
          else none
        | [] => none

/-- A single raw match produced by `TOKEN_RE.finditer`: start offset, the
name of the alternative that matched (`match.lastgroup`) and the matched
text (`match.group()`). -/
structure RawMatch where
  start : Nat
  type : String
  value : String
deriving DecidableEq, Repr

/-- `TOKEN_RE.finditer(expression)`: scan left to right; at each position
try the alternation, emit the match and continue after it, or — exactly as
Python `finditer` does — silently skip one character that no alternative
matches and try the next position.  `fuel` only bounds the recursion; every
step advances at least one character, so `length + 1` fuel is always
enough. -/
def pyFindIter : Nat → Option Char → List Char → Nat → List RawMatch
  | 0, _, _, _ => []
  | _ + 1, _, [], _ => []
  | f + 1, prev, c :: rest, i =>
    match matchAtAux prev (c :: rest) with
    | some (ty, len) =>
      let taken := (c :: rest).take len
      { start := i, type := ty, value := String.mk taken } ::
        pyFindIter f taken.getLast? ((c :: rest).drop len) (i + len)
    | none => pyFindIter f (some c) rest (i + 1)

/-- All matches of `TOKEN_RE.finditer` over an expression string. -/
def pyFinditer (s : String) : List RawMatch :=
  pyFindIter (s.data.length + 1) none s.data 0

/-- A lexical token (`domain/where_parser.py`, class `Token`). -/
structure Token where
  type : String
  value : String
  position : Nat
deriving DecidableEq, Repr

/-- The `for match in TOKEN_RE.finditer(...)` loop body of `tokenize`:
WHITESPACE matches are skipped without updating `position` (the `continue`
runs before the update); every other match is appended as a token and
`position` is set to the end of that match.  (The `token_type is None`
branch of the source is dead code: `lastgroup` is always one of the named
alternatives.) -/
def tokenizeLoop : List RawMatch → List Token → Nat → List Token × Nat
  | [], toks, pos => (toks, pos)
  | m :: ms, toks, pos =>
    if m.type = "WHITESPACE" then tokenizeLoop ms toks pos
    else
      tokenizeLoop ms (toks ++ [{ type := m.type, value := m.value, position := m.start }])
        (m.start + m.value.length)

/-- `tokenize` from `domain/where_parser.py`: run the finditer loop, then
fail if `position` (the end of the last emitted token, 0 if none) is
strictly before the end of the expression, reporting that offset and the
character found there. -/
def tokenize (s : String) : Except String (List Token) :=
  match tokenizeLoop (pyFinditer s) [] 0 with
  | (toks, position) =>
    if hp : position < s.data.length then
      .error ("Unexpected character at position " ++ toString position ++ ": " ++
        String.mk [s.data.get ⟨position, hp⟩])
    else .ok toks

/-- Python `int()` applied to the text of a NUMBER token (`-?` followed by
digits). -/
def pyInt (s : String) : Int :=
  let digitsToNat : List Char → Nat :=
    fun cs => cs.foldl (fun a c => a * 10 + (c.toNat - '0'.toNat)) 0
  match s.data with
  | '-' :: cs => -(digitsToNat cs : Int)
  | cs => (digitsToNat cs : Int)

/-- Python `str.replace` specialised to a two-character pattern
`backslash, q` replaced by the single character `q`: scan left to right,
non-overlapping. -/
def replaceEsc (q : Char) : List Char → List Char
  | [] => []
  | [c] => [c]
  | a :: b :: rest =>
    if a = bslash && b = q then q :: replaceEsc q rest
    else a :: replaceEsc q (b :: rest)

/-- The string-literal processing the parser applies to every STRING token
text (`parse_atom`): drop the surrounding quotes (`token.value[1:-1]`),
then `.replace(r'\"', '"').replace(r"\'", "'")` — first all `\"`
occurrences, then all `\'` occurrences. -/
def pyUnescape (v : String) : String :=
  String.mk (replaceEsc squote (replaceEsc '"' (v.data.drop 1).dropLast))

/-- `Parser.consume(expected_type)`: return the current token and advance,
failing on end of input or a type mismatch with the messages of the
source. -/
def consumeTok (ts : List Token) (pos : Nat) (expected : String) :
    Except String (Token × Nat) :=
  match ts.get? pos with
  | none => .error "Unexpected end of expression"
  | some t =>
    if t.type = expected then .ok (t, pos + 1)
    else .error ("Expected " ++ expected ++ ", got " ++ t.type ++
      " at position " ++ toString t.position)

/-- The comparator token types accepted by `parse_cmp_expr`. -/
def isCmpType (ty : String) : Bool :=
  ty = "GT" || ty = "LT" || ty = "GTE" || ty = "LTE" || ty = "EQ" || ty = "NEQ"

/-- The `op_map` dict of `parse_cmp_expr`: comparator token type to
operator string. -/
def opMap (ty : String) : String :=
  if ty = "GT" then ">"
  else if ty = "LT" then "<"
  else if ty = "GTE" then ">="
  else if ty = "LTE" then "<="
  else if ty = "EQ" then "=="
  else "!="

mutual

/-- `parse_or_expr`: `and_expr ('or' and_expr)*`, left-associative.  All
parser functions carry a fuel argument in place of the source's general
recursion; the fuel chosen in `parse` below is always sufficient. -/
def parseOrExpr (ts : List Token) : Nat → Nat → Except String (ASTNode × Nat)
  | 0, _ => .error "parser fuel exhausted"
  | f + 1, pos =>
    match parseAndExpr ts f pos with
    | .error e => .error e
    | .ok (left, p) => parseOrRest ts f left p
termination_by structural f => f

/-- The `while ... type == 'OR'` loop of `parse_or_expr`. -/
def parseOrRest (ts : List Token) : Nat → ASTNode → Nat → Except String (ASTNode × Nat)
  | 0, _, _ => .error "parser fuel exhausted"
  | f + 1, left, pos =>
    match ts.get? pos with
    | some t =>
      if t.type = "OR" then
        match parseAndExpr ts f (pos + 1) with
        | .error e => .error e
        | .ok (right, p2) => parseOrRest ts f (.BinaryOp left "or" right) p2
      else .ok (left, pos)
    | none => .ok (left, pos)
termination_by structural f => f

/-- `parse_and_expr`: `cmp_expr ('and' cmp_expr)*`, left-associative. -/
def parseAndExpr (ts : List Token) : Nat → Nat → Except String (ASTNode × Nat)
  | 0, _ => .error "parser fuel exhausted"
  | f + 1, pos =>
    match parseCmpExpr ts f pos with
    | .error e => .error e
    | .ok (left, p) => parseAndRest ts f left p
termination_by structural f => f

/-- The `while ... type == 'AND'` loop of `parse_and_expr`. -/
def parseAndRest (ts : List Token) : Nat → ASTNode → Nat → Except String (ASTNode × Nat)
  | 0, _, _ => .error "parser fuel exhausted"
  | f + 1, left, pos =>
    match ts.get? pos with
    | some t =>
      if t.type = "AND" then
        match parseCmpExpr ts f (pos + 1) with
        | .error e => .error e
        | .ok (right, p2) => parseAndRest ts f (.BinaryOp left "and" right) p2
      else .ok (left, pos)
    | none => .ok (left, pos)
termination_by structural f => f

/-- `parse_cmp_expr`: `term (COMPARATOR term)?` — at most one comparator is
consumed; a second comparator is left in place for the caller. -/
def parseCmpExpr (ts : List Token) : Nat → Nat → Except String (ASTNode × Nat)
  | 0, _ => .error "parser fuel exhausted"
  | f + 1, pos =>
    match parseTerm ts f pos with
    | .error e => .error e
    | .ok (left, p) =>
      match ts.get? p with
      | some t =>
        if isCmpType t.type then
          match parseTerm ts f (p + 1) with
          | .error e => .error e
          | .ok (right, p2) => .ok (.BinaryOp left (opMap t.type) right, p2)
        else .ok (left, p)
      | none => .ok (left, p)
termination_by structural f => f

/-- `parse_term`: `'not' term | atom`. -/
def parseTerm (ts : List Token) : Nat → Nat → Except String (ASTNode × Nat)
  | 0, _ => .error "parser fuel exhausted"
  | f + 1, pos =>
    match ts.get? pos with
    | some t =>
      if t.type = "NOT" then
        match parseTerm ts f (pos + 1) with
        | .error e => .error e
        | .ok (operand, p) => .ok (.UnaryOp "not" operand, p)
      else parseAtom ts f pos
    | none => parseAtom ts f pos
termination_by structural f => f

/-- `parse_atom`: number and string literals, `ident.member` attribute and
method-call forms, the `group(STRING)` call, and parenthesised
expressions, with the source's error messages. -/
def parseAtom (ts : List Token) : Nat → Nat → Except String (ASTNode × Nat)
  | 0, _ => .error "parser fuel exhausted"
  | f + 1, pos =>
    match ts.get? pos with
    | none => .error "Unexpected end of expression"
    | some tok =>
      if tok.type = "LPAREN" then
        match parseOrExpr ts f (pos + 1) with
        | .error e => .error e
        | .ok (e, p) =>
          match consumeTok ts p "RPAREN" with
          | .error er => .error er
          | .ok (_, p2) => .ok (e, p2)
      else if tok.type = "NUMBER" then .ok (.Literal (.int (pyInt tok.value)), pos + 1)
      else if tok.type = "STRING" then .ok (.Literal (.str (pyUnescape tok.value)), pos + 1)
      else if tok.type = "IDENT" then
        let ident := tok.value
        match ts.get? (pos + 1) with
        | some t2 =>
          if t2.type = "DOT" then
            match consumeTok ts (pos + 2) "IDENT" with
            | .error e => .error e
            | .ok (memTok, p3) =>
              match ts.get? p3 with
              | some t4 =>
                if t4.type = "LPAREN" then
                  match ts.get? (p3 + 1) with
                  | some t5 =>
                    if t5.type = "STRING" then
                      match consumeTok ts (p3 + 2) "RPAREN" with
                      | .error e => .error e
                      | .ok (_, p6) =>
                        .ok (.MethodCall ident memTok.value [pyUnescape t5.value], p6)
                    else
                      match consumeTok ts (p3 + 1) "RPAREN" with
                      | .error e => .error e
                      | .ok (_, p6) => .ok (.MethodCall ident memTok.value [], p6)
                  | none =>
                    match consumeTok ts (p3 + 1) "RPAREN" with
                    | .error e => .error e
                    | .ok (_, p6) => .ok (.MethodCall ident memTok.value [], p6)
                else .ok (.Attribute ident memTok.value, p3)
              | none => .ok (.Attribute ident memTok.value, p3)
          else if t2.type = "LPAREN" then
            if ident = "group" then
              match ts.get? (pos + 2) with
              | some t3 =>
                if t3.type = "STRING" then
                  match consumeTok ts (pos + 3) "RPAREN" with
                  | .error e => .error e
                  | .ok (_, p4) => .ok (.GroupAccess (pyUnescape t3.value), p4)
                else .error "group() requires string argument"
              | none => .error "group() requires string argument"
            else .error ("Unknown function: " ++ ident)
          else .error ("Unexpected identifier: " ++ ident)
        | none => .error ("Unexpected identifier: " ++ ident)
      else .error ("Unexpected token: " ++ tok.type)
termination_by structural f => f

end

/-- Fuel sufficient for any run of the recursive-descent parser: each
nesting level (parenthesis or `not`) consumes a token before recursing and
each function in a descent chain decrements the fuel once, so ten units per
token plus a constant always suffice. -/
def parserFuel (ts : List Token) : Nat := 10 * ts.length + 10

/-- `Parser.parse`: parse the whole token list with `parse_or_expr`, then
fail if any token is left over, with the source's message. -/
def parse (ts : List Token) : Except String ASTNode :=
  match parseOrExpr ts (parserFuel ts) 0 with
  | .error e => .error e
  | .ok (ast, p) =>
    if h : p < ts.length then
      .error ("Unexpected token after expression: " ++ (ts.get ⟨p, h⟩).value)
    else .ok ast

/-- `parse_where_expression`: tokenize then parse. -/
def parse_where_expression (expr : String) : Except String ASTNode :=
  match tokenize expr with
  | .error e => .error e
  | .ok ts => parse ts

/-- `evaluate_where` from `domain/where_parser.py`: wraps `_evaluate_node`,
turning any raised exception into `Err(f"Evaluation error: {e}")`. -/
def evaluate_where (ast : ASTNode) (ctx : MatchContext) : Except String Value :=
  match evaluateNode ast ctx with
  | .ok v => .ok v
  | .error e => .error ("Evaluation error: " ++ e)

/-- `domain/matcher.py`, class `MatchConfig`. -/
structure MatchConfig where
  pattern : String
  case_sensitive : Bool
deriving DecidableEq, Repr

/-- The result of a successful `re.Pattern.search`: only its `groupdict()`
is consumed by the matcher.  Values are `Option String`: `none` models
Python `None`, the `groupdict` value of a declared named group that did not
participate in the match. -/
structure PyMatch where
  groupdict : List (String × Option String)
deriving DecidableEq, Repr

/-- A compiled regex as the matcher uses it: `search` over a line's
content. -/
structure Regex where
  search : String → Option PyMatch

/-- The host `re.compile(pattern, flags)` seam: takes the inner pattern text
and the resolved case-sensitivity (`flags = 0` when case-sensitive,
`re.IGNORECASE` otherwise) and either returns a compiled regex or fails
with a `re.error` message. -/
def RegexCompile : Type := String → Bool → Except String Regex

/-- `_is_regex_pattern`: length at least 3 and the `/` delimiter at both
ends (`startswith`/`endswith` expressed on the character list). -/
def is_regex_pattern (p : String) : Bool :=
  decide (p.length ≥ 3) && ['/'].isPrefixOf p.data && ['/'].isSuffixOf p.data

/-- `_create_regex_matcher`: strip the delimiters, compile once; on compile
failure return a matcher that fails every line with the compilation error;
otherwise search each line, a match yielding a `MatchContext` carrying
`match.groupdict()` verbatim and a non-match yielding a per-line error. -/
def create_regex_matcher (compile : RegexCompile) (cfg : MatchConfig) :
    Line → Except String MatchContext :=
  let regex_pattern := String.mk (cfg.pattern.data.drop 1).dropLast
  match compile regex_pattern cfg.case_sensitive with
  | .error e => fun _ => .error ("Invalid regex pattern: " ++ e)
  | .ok compiled => fun line =>
    match compiled.search line.content with
    | some m => .ok { line := line, groups := m.groupdict }
    | none => .error ("No match at line " ++ toString line.number)

/-- Python `str.lower` (ASCII case folding suffices here). -/
def pyLower (s : String) : String := String.mk (s.data.map Char.toLower)

/-- `_create_literal_matcher`: case-fold pattern and content when
case-insensitive, then substring containment; matches carry no groups. -/
def create_literal_matcher (cfg : MatchConfig) : Line → Except String MatchContext :=
  let search_pattern := if cfg.case_sensitive then cfg.pattern else pyLower cfg.pattern
  fun line =>
    let transformed := if cfg.case_sensitive then line.content else pyLower line.content
    if subListOf search_pattern.data transformed.data then
      .ok { line := line, groups := [] }
    else .error ("No match at line " ++ toString line.number)

/-- `create_matcher`: `/…/`-delimited patterns get the regex matcher, other
non-empty patterns the literal matcher, and the empty pattern a matcher
that fails every line with `Invalid pattern: ''` (the `!r` repr of the
empty string). -/
def create_matcher (compile : RegexCompile) (cfg : MatchConfig) :
    Line → Except String MatchContext :=
  if is_regex_pattern cfg.pattern then create_regex_matcher compile cfg
  else if cfg.pattern ≠ "" then create_literal_matcher cfg
  else fun _ => .error ("Invalid pattern: " ++ String.mk [squote, squote])

/-- The parse loop of `create_filter` (`domain/filter.py`): parse the
clauses in order, stopping at the first failure with its error. -/
def parseClauses : List String → Except String (List ASTNode)
  | [] => .ok []
  | e :: rest =>
    match parse_where_expression e with
    | .error er => .error er
    | .ok ast =>
      match parseClauses rest with
      | .error er => .error er
      | .ok asts => .ok (ast :: asts)

/-- The `composite_filter` closure of `create_filter`: evaluate the parsed
clauses in order; the first falsy result short-circuits to `Ok(False)`, the
first evaluation error is propagated, otherwise `Ok(True)`. -/
def compositeFilter (asts : List ASTNode) (ctx : MatchContext) : Except String Bool :=
  match asts with
  | [] => .ok true
  | ast :: rest =>
    match evaluate_where ast ctx with
    | .ok v => if !pyTruthy v then .ok false else compositeFilter rest ctx
    | .error e => .error e

/-- `create_filter` (`domain/filter.py`): no clauses gives a pass-through
filter; a parse failure in any clause gives a filter that ignores its
context and always fails with `Parse error: <err>`; otherwise the composite
AND filter. -/
def create_filter (expressions : List String) : MatchContext → Except String Bool :=
  match expressions with
  | [] => fun _ => .ok true
  | _ :: _ =>
    match parseClauses expressions with
    | .error e => fun _ => .error ("Parse error: " ++ e)
    | .ok asts => fun ctx => compositeFilter asts ctx

/-- `build_pipeline` (`domain/pipeline.py`) applied to a finite input
stream: per item, a read error is propagated as an outcome; a non-matching
line is skipped silently; a filter error is propagated as an outcome; a
filter `True` yields the context, a filter `False` is skipped.  Processing
always continues with the next item. -/
def build_pipeline (matcher : Line → Except String MatchContext)
    (filter_fn : MatchContext → Except String Bool) :
    List (Except String Line) → List (Except String MatchContext)
  | [] => []
  | lr :: rest =>
    match lr with
    | .error e => .error e :: build_pipeline matcher filter_fn rest
    | .ok line =>
      match matcher line with
      | .error _ => build_pipeline matcher filter_fn rest
      | .ok ctx =>
        match filter_fn ctx with
        | .error e => .error e :: build_pipeline matcher filter_fn rest
        | .ok passes =>
          if passes then .ok ctx :: build_pipeline matcher filter_fn rest
          else build_pipeline matcher filter_fn rest

/-- The pipeline composition performed by `run` (`cli/runner.py`) after the
reader is selected: build the matcher and filter from the CLI arguments and
stream the reader's line results through `build_pipeline`. -/
def run_outcomes (compile : RegexCompile) (cfg : MatchConfig)
    (where_clauses : List String) (input : List (Except String Line)) :
    List (Except String MatchContext) :=
  build_pipeline (create_matcher compile cfg) (create_filter where_clauses) input

/-- The per-item outcome list as the spec describes it (§4.5, claim C7);
stated from the spec's words to be compared with `build_pipeline`: a failed
outcome for a read error, nothing for a non-match, and for a match either
the successful context, nothing, or the evaluation failure according to the
filter. -/
def specItemOutcomes (matcher : Line → Except String MatchContext)
    (filter_fn : MatchContext → Except String Bool) :
    Except String Line → List (Except String MatchContext)
  | .error e => [.error e]
  | .ok line =>
    match matcher line with
    | .error _ => []
    | .ok ctx =>
      match filter_fn ctx with
      | .error e => [.error e]
      | .ok true => [.ok ctx]
      | .ok false => []

/-- A model of the host regex engine for the one concrete pattern
`a(?P<g>b)?` used as a failing input: `search` finds the leftmost `a`; the
optional named group `g` participates exactly when `b` follows; per the
documented behaviour of `re.Match.groupdict`, a non-participating group is
mapped to Python `None` (modelled as `Option.none`). -/
def searchOptB : List Char → Option PyMatch
  | [] => none
  | 'a' :: rest =>
    some { groupdict := [("g", match rest with | 'b' :: _ => some "b" | _ => none)] }
  | _ :: rest => searchOptB rest

/-- The compiled form of `a(?P<g>b)?` under `searchOptB`. -/
def regexOptB : Regex := { search := fun s => searchOptB s.data }

/-- A `re.compile` instance that knows exactly the pattern `a(?P<g>b)?`. -/
def compileOptB : RegexCompile :=
  fun p _ => if p = "a(?P<g>b)?" then .ok regexOptB else .error "unsupported pattern in model"

/-- Whether a runtime value is text. -/
def Value.isText : Value → Bool
  | .str _ => true
  | _ => false

/-- Whether a runtime value is numeric for Python comparison purposes
(an integer, or a boolean viewed as 0/1). -/
def Value.isNumeric : Value → Bool
  | .int _ => true
  | .bool _ => true
  | _ => false

/-- Whether the two-character sequence `a, b` occurs anywhere in a character
list. -/
def hasPair (a b : Char) : List Char → Bool
  | x :: y :: r => (x = a && y = b) || hasPair a b (y :: r)
  | _ => false

/-- The tokens `tokenize` emits for an expression: the finditer matches
minus the WHITESPACE ones, in order. -/
def emittedToks (s : String) : List Token :=
  ((pyFinditer s).filter (fun m => m.type ≠ "WHITESPACE")).map
    (fun m => { type := m.type, value := m.value, position := m.start })

/-- The final value of the `position` variable of `tokenize`: the end
offset of the last emitted (non-WHITESPACE) match, or 0 when none is
emitted. -/
def lastEndPos (s : String) : Nat :=
  ((pyFinditer s).filter (fun m => m.type ≠ "WHITESPACE")).foldl
    (fun _ m => m.start + m.value.length) 0

end BsceMgrep

namespace BsceMgrep

/-- The finditer loop of `tokenize`, restructured: it appends exactly the
non-WHITESPACE matches as tokens and leaves `position` at the end of the
last of them (or at its initial value when none is emitted). -/
theorem tokenizeLoop_spec (ms : List RawMatch) :
    ∀ (toks : List Token) (pos : Nat),
    tokenizeLoop ms toks pos =
      (toks ++ (ms.filter (fun m => m.type ≠ "WHITESPACE")).map
        (fun m => { type := m.type, value := m.value, position := m.start }),
       (ms.filter (fun m => m.type ≠ "WHITESPACE")).foldl
        (fun _ m => m.start + m.value.length) pos) := by
  induction ms with
  | nil => intro toks pos; simp [tokenizeLoop]
  | cons m rest ih =>
    intro toks pos
    by_cases h : m.type = "WHITESPACE"
    · simp [tokenizeLoop, h, ih]
    · simp [tokenizeLoop, h, ih]

/-- `build_pipeline` over a finite stream is the concatenation, in input
order, of the per-item outcome lists. -/
theorem pipeline_join (matcher : Line → Except String MatchContext)
    (filter_fn : MatchContext → Except String Bool) :
    ∀ input, build_pipeline matcher filter_fn input =
      (input.map (specItemOutcomes matcher filter_fn)).flatten := by
  intro input
  induction input with
  | nil => rfl
  | cons r rest ih =>
    cases r with
    | error e => simp [build_pipeline, specItemOutcomes, ih]
    | ok line =>
      cases hm : matcher line with
      | error e => simp [build_pipeline, specItemOutcomes, hm, ih]
      | ok ctx =>
        cases hf : filter_fn ctx with
        | error e => simp [build_pipeline, specItemOutcomes, hm, hf, ih]
        | ok passes =>
          cases passes with
          | true => simp [build_pipeline, specItemOutcomes, hm, hf, ih]
          | false => simp [build_pipeline, specItemOutcomes, hm, hf, ih]

/-- Claim C7: for every finite input stream, the pipeline's outcome stream
is exactly the concatenation, in input order, of per-item outcomes: a
failed outcome for each upstream read error, nothing for a non-matching
line, and for a matched line the successful context when the filter returns
true, nothing when it returns false, and the failure when it returns an
evaluation error — processing continuing after every failure. -/
theorem c7_pipeline_outcomes (matcher : Line → Except String MatchContext)
    (filter_fn : MatchContext → Except String Bool)
    (input : List (Except String Line)) :
    build_pipeline matcher filter_fn input =
      (input.map (specItemOutcomes matcher filter_fn)).flatten :=
  pipeline_join matcher filter_fn input

/-- Claim C1 (corrected): a where-clause parse failure is not a fatal
construction error — `create_filter` returns a filter that ignores its
context and always returns the parse failure, the input stream is still
consumed, and every line the matcher matches produces a failed per-line
outcome carrying the parse error (read errors still propagate, non-matching
lines still produce nothing). -/
theorem c1_parse_failure_deferred (compile : RegexCompile) (cfg : MatchConfig)
    (c : String) (cs : List String) (e : String)
    (h : parseClauses (c :: cs) = .error e)
    (input : List (Except String Line)) :
    (∀ ctx, create_filter (c :: cs) ctx = .error ("Parse error: " ++ e)) ∧
    run_outcomes compile cfg (c :: cs) input =
      (input.map (fun r =>
        match r with
        | .error er => [.error er]
        | .ok line =>
          match create_matcher compile cfg line with
          | .error _ => ([] : List (Except String MatchContext))
          | .ok _ => [.error ("Parse error: " ++ e)])).flatten := by
  have hf : create_filter (c :: cs) = fun _ => .error ("Parse error: " ++ e) := by
    funext ctx
    simp [create_filter, h]
  refine ⟨fun ctx => by rw [hf], ?_⟩
  unfold run_outcomes
  rw [hf]
  induction input with
  | nil => rfl
  | cons r rest ih =>
    cases r with
    | error er => simp [build_pipeline, ih]
    | ok line =>
      cases hm : create_matcher compile cfg line with
      | error er => simp [build_pipeline, hm, ih]
      | ok ctx => simp [build_pipeline, hm, ih]

/-- Witness for C1 at a concrete input: the single clause
`line.length @ 5` fails to parse, the filter is the constant parse-error
filter, and the run over one matching line yields one failed outcome. -/
theorem c1_parse_failure_deferred_witness :
    (∀ ctx, create_filter ["line.length @ 5"] ctx =
      .error "Parse error: Unexpected token after expression: 5") ∧
    run_outcomes compileOptB ⟨"x", false⟩ ["line.length @ 5"] [.ok ⟨1, "x"⟩] =
      ([[.error "Parse error: Unexpected token after expression: 5"]].map id).flatten := by
  have h := c1_parse_failure_deferred compileOptB ⟨"x", false⟩ "line.length @ 5" []
    "Unexpected token after expression: 5" rfl [.ok ⟨1, "x"⟩]
  exact ⟨h.1, by rw [h.2]; rfl⟩

/-- Counterexample to C1 as stated: with the malformed clause
`line.length @ 5` the pipeline does produce per-line outcomes — one failed
outcome for the matched line — instead of producing none. -/
theorem c1_counterexample :
    run_outcomes compileOptB ⟨"x", false⟩ ["line.length @ 5"] [.ok ⟨1, "x"⟩] =
      [.error "Parse error: Unexpected token after expression: 5"] ∧
    run_outcomes compileOptB ⟨"x", false⟩ ["line.length @ 5"] [.ok ⟨1, "x"⟩] ≠ [] := by
  have h1 : run_outcomes compileOptB ⟨"x", false⟩ ["line.length @ 5"] [.ok ⟨1, "x"⟩] =
      [.error "Parse error: Unexpected token after expression: 5"] := rfl
  exact ⟨h1, by rw [h1]; simp⟩

/-- `applyBinOp` on a text operand against a numeric (integer or boolean)
operand: every order comparison raises, while `==` yields false and `!=`
yields true. -/
theorem applyBinOp_mixed (lv rv : Value) (hmix : lv.isText ≠ rv.isText)
    (hlk : (lv.isNumeric || lv.isText) = true)
    (hrk : (rv.isNumeric || rv.isText) = true) :
    (∀ op, op ∈ ([">", "<", ">=", "<="] : List String) →
      ∃ msg, applyBinOp op lv rv = .error msg) ∧
    applyBinOp "==" lv rv = .ok (.bool false) ∧
    applyBinOp "!=" lv rv = .ok (.bool true) := by
  cases lv <;> cases rv <;>
    first
    | (refine ⟨fun op hop => ?_, rfl, rfl⟩
       fin_cases hop <;> exact ⟨_, rfl⟩)
    | simp_all [Value.isText, Value.isNumeric]

/-- Claim C2 (corrected): mixed-type operands only fail for the ordering
operators.  If one operand evaluates to text and the other to an integer
or boolean, then `>`, `<`, `>=`, `<=` return an EvaluationError, but `==`
and `!=` return the booleans false and true respectively — no error and no
value coercion.  An integer and a boolean are compared numerically
(boolean as 0/1) by all six operators without error. -/
theorem c2_strict_comparison_amended (ctx : MatchContext) (l r : ASTNode) :
    (∀ lv rv, evaluateNode l ctx = .ok lv → evaluateNode r ctx = .ok rv →
      lv.isText ≠ rv.isText → (lv.isNumeric || lv.isText) = true →
      (rv.isNumeric || rv.isText) = true →
      (∀ op, op ∈ ([">", "<", ">=", "<="] : List String) →
        ∃ msg, evaluate_where (.BinaryOp l op r) ctx = .error msg) ∧
      evaluate_where (.BinaryOp l "==" r) ctx = .ok (.bool false) ∧
      evaluate_where (.BinaryOp l "!=" r) ctx = .ok (.bool true)) ∧
    (∀ m b, evaluateNode l ctx = .ok (.int m) → evaluateNode r ctx = .ok (.bool b) →
      ∀ op, op ∈ ([">", "<", ">=", "<=", "==", "!="] : List String) →
      ∃ res : Bool, evaluate_where (.BinaryOp l op r) ctx = .ok (.bool res)) := by
  constructor
  · intro lv rv hl hr hmix hlk hrk
    have key := applyBinOp_mixed lv rv hmix hlk hrk
    have hev : ∀ op, evaluate_where (.BinaryOp l op r) ctx =
        (match applyBinOp op lv rv with
         | .ok v => .ok v
         | .error e => .error ("Evaluation error: " ++ e)) := by
      intro op
      simp [evaluate_where, evaluateNode, hl, hr]
    refine ⟨fun op hop => ?_, ?_, ?_⟩
    · obtain ⟨msg, hm⟩ := key.1 op hop
      exact ⟨"Evaluation error: " ++ msg, by rw [hev op, hm]⟩
    · rw [hev "==", key.2.1]
    · rw [hev "!=", key.2.2]
  · intro m b hl hr op hop
    fin_cases hop <;>
      simp [evaluate_where, evaluateNode, hl, hr, applyBinOp, pyOrderCmp,
        numView, pyEq]
    exact em _

/-- Witness for C2 (amended) at concrete operands: `"a" == 5` evaluates to
false without error while `"a" > 5` is an EvaluationError. -/
theorem c2_strict_comparison_amended_witness :
    evaluate_where (.BinaryOp (.Literal (.str "a")) "==" (.Literal (.int 5)))
      ⟨⟨1, ""⟩, []⟩ = .ok (.bool false) ∧
    ∃ msg, evaluate_where (.BinaryOp (.Literal (.str "a")) ">" (.Literal (.int 5)))
      ⟨⟨1, ""⟩, []⟩ = .error msg := by
  have h := (c2_strict_comparison_amended ⟨⟨1, ""⟩, []⟩ (.Literal (.str "a"))
    (.Literal (.int 5))).1 (.str "a") (.int 5) rfl rfl (by decide) (by decide) (by decide)
  exact ⟨h.2.1, h.1 ">" (by decide)⟩

/-- Counterexample to C2 as stated: evaluating `1 == "a"` (an integer
against a text) returns the boolean false, and `1 != "a"` the boolean true,
instead of an EvaluationError. -/
theorem c2_counterexample :
    evaluate_where (.BinaryOp (.Literal (.int 1)) "==" (.Literal (.str "a")))
      ⟨⟨1, ""⟩, []⟩ = .ok (.bool false) ∧
    evaluate_where (.BinaryOp (.Literal (.int 1)) "!=" (.Literal (.str "a")))
      ⟨⟨1, ""⟩, []⟩ = .ok (.bool true) :=
  ⟨rfl, rfl⟩

/-- Claim C3 (corrected): `tokenize` fails exactly when the end of the last
emitted token (0 when none is emitted) lies strictly before the end of the
string, and the error reports that offset and the character found there;
in particular trailing whitespace after the last token is an error, while
a byte matched by no pattern that sits before a later match is skipped
silently.  Whitespace is never emitted as a token. -/
theorem c3_tokenize_amended (s : String) :
    (tokenize s = if h : lastEndPos s < s.data.length then
        .error ("Unexpected character at position " ++ toString (lastEndPos s) ++
          ": " ++ String.mk [s.data.get ⟨lastEndPos s, h⟩])
      else .ok (emittedToks s)) ∧
    ∀ t ∈ emittedToks s, t.type ≠ "WHITESPACE" := by
  constructor
  · unfold tokenize
    rw [tokenizeLoop_spec]
    simp only [emittedToks, lastEndPos, List.nil_append]
  · intro t ht
    simp only [emittedToks, List.mem_map, List.mem_filter] at ht
    obtain ⟨m, ⟨_, hw⟩, rfl⟩ := ht
    simpa using hw

/-- Witness for C3 at concrete inputs: the token emitted for `a @ b` is not
whitespace, and tokenizing `a@` fails at the trailing unmatched byte. -/
theorem c3_tokenize_amended_witness :
    ({ type := "IDENT", value := "a", position := 0 } : Token).type ≠ "WHITESPACE" ∧
    tokenize "a@" = .error "Unexpected character at position 1: @" := by
  refine ⟨(c3_tokenize_amended "a @ b").2 ⟨"IDENT", "a", 0⟩ (by decide), ?_⟩
  rw [(c3_tokenize_amended "a@").1]
  rfl

/-- Counterexample to C3 as stated: the invalid byte `@` in the middle of
`a @ b` does not cause a TokenizeError (the string tokenizes successfully,
the byte silently skipped), while the trailing whitespace of `a ` does
cause one. -/
theorem c3_counterexample :
    tokenize "a @ b" = .ok [⟨"IDENT", "a", 0⟩, ⟨"IDENT", "b", 4⟩] ∧
    tokenize "a " = .error "Unexpected character at position 1:  " :=
  ⟨rfl, rfl⟩

/-- Claim C4 (code bug): on the pattern `/a(?P<g>b)?/` and the line `a`,
the regex matches but the optional named group does not participate, and
`match.groupdict()` maps it to Python `None`; the produced `MatchContext`
therefore carries a `groups` entry whose value is not text, contradicting
the declared `dict[str, str]` type of `MatchContext.groups`. -/
theorem c4_groupdict_none_code_bug :
    create_regex_matcher compileOptB ⟨"/a(?P<g>b)?/", true⟩ ⟨1, "a"⟩ =
      .ok ⟨⟨1, "a"⟩, [("g", none)]⟩ ∧
    (MatchContext.mk ⟨1, "a"⟩ [("g", none)]).groups.lookup "g" = some none :=
  ⟨rfl, rfl⟩

/-- `replaceEsc` leaves a character list without the two-character sequence
`backslash, q` unchanged. -/
theorem replaceEsc_no_pair (q : Char) (cs : List Char)
    (h : hasPair bslash q cs = false) : replaceEsc q cs = cs := by
  induction cs with
  | nil => rfl
  | cons a rest ih =>
    cases rest with
    | nil => rfl
    | cons b rest2 =>
      simp only [hasPair, Bool.or_eq_false_iff] at h
      simp [replaceEsc, h.1, ih h.2]

/-- Claim C5 (corrected): `create_matcher` never fails at construction.
An empty pattern yields a matcher that fails every line with
`Invalid pattern: ''`; a `/…/` pattern whose inner regex fails to compile
yields a matcher that fails every line with the compilation error; and the
pipeline treats a matcher that fails on every line as a silent non-match
for every line, so only upstream read errors ever surface as outcomes. -/
theorem c5_matcher_construction_amended (compile : RegexCompile) :
    (∀ cs line, create_matcher compile ⟨"", cs⟩ line =
      .error ("Invalid pattern: " ++ String.mk [squote, squote])) ∧
    (∀ p cs e line, is_regex_pattern p = true →
      compile (String.mk (p.data.drop 1).dropLast) cs = .error e →
      create_matcher compile ⟨p, cs⟩ line = .error ("Invalid regex pattern: " ++ e)) ∧
    (∀ (m : Line → Except String MatchContext) f (input : List (Except String Line)),
      (∀ l, ∃ e, m l = .error e) →
      build_pipeline m f input = input.filterMap (fun r =>
        match r with
        | .error e => some (.error e)
        | .ok _ => none)) := by
  refine ⟨fun cs line => rfl, ?_, ?_⟩
  · intro p cs e line hreg hcomp
    rw [List.drop_one] at hcomp
    simp [create_matcher, hreg, create_regex_matcher, hcomp]
  · intro m f input hm
    induction input with
    | nil => rfl
    | cons r rest ih =>
      cases r with
      | error e => simp [build_pipeline, ih]
      | ok line =>
        obtain ⟨e, he⟩ := hm line
        simp [build_pipeline, he, ih]

/-- Witness for C5 at concrete inputs: a failing compile on `/(/` gives a
per-line failing matcher, and a matcher failing every line makes the
pipeline emit nothing for an all-successful input. -/
theorem c5_matcher_construction_amended_witness :
    create_matcher (fun _ _ => .error "unbalanced parenthesis") ⟨"/(/", true⟩ ⟨1, "x"⟩ =
      .error "Invalid regex pattern: unbalanced parenthesis" ∧
    build_pipeline (fun l => .error ("No match at line " ++ toString l.number))
      (fun _ => .ok true) [.ok ⟨1, "x"⟩] = [] := by
  have h := c5_matcher_construction_amended (fun _ _ => .error "unbalanced parenthesis")
  refine ⟨h.2.1 "/(/" true "unbalanced parenthesis" ⟨1, "x"⟩ rfl rfl, ?_⟩
  rw [h.2.2 (fun l => .error ("No match at line " ++ toString l.number))
    (fun _ => .ok true) [.ok ⟨1, "x"⟩] (fun l => ⟨_, rfl⟩)]
  rfl

/-- Counterexample to C5 as stated: an empty pattern and an invalid regex
both construct matchers (no construction-time failure); their per-line
failures are treated by the pipeline as silent non-matches, so the line is
processed and silently dropped. -/
theorem c5_counterexample :
    create_matcher (fun _ _ => .error "unbalanced parenthesis") ⟨"", false⟩ ⟨1, "x"⟩ =
      .error "Invalid pattern: ''" ∧
    create_matcher (fun _ _ => .error "unbalanced parenthesis") ⟨"/(/", true⟩ ⟨1, "x"⟩ =
      .error "Invalid regex pattern: unbalanced parenthesis" ∧
    build_pipeline (create_matcher (fun _ _ => .error "unbalanced parenthesis") ⟨"", false⟩)
      (fun _ => .ok true) [.ok ⟨1, "x"⟩] = [] :=
  ⟨rfl, rfl, rfl⟩

/-- Claim C6 (corrected): the clause `not line.contains("x") == true` does
not parse — the grammar has no boolean literal, so `true` lexes as an
identifier and parsing fails with `Unexpected identifier: true`.  The
precedence half of the claim holds: with a parseable right operand
(`... == 1`) `not` applies only to the method call, and evaluating the AST
the claim intends — `UnaryOp(not, MethodCall(line, contains, ["x"]))`
compared equal to `Literal(true)` — against any context whose line does not
contain `"x"` yields the boolean true. -/
theorem c6_not_precedence_amended :
    parse_where_expression "not line.contains(\"x\") == true" =
      .error "Unexpected identifier: true" ∧
    parse_where_expression "not line.contains(\"x\") == 1" =
      .ok (.BinaryOp (.UnaryOp "not" (.MethodCall "line" "contains" ["x"])) "=="
        (.Literal (.int 1))) ∧
    ∀ ctx : MatchContext, ctx.line.contains "x" = false →
      evaluate_where (.BinaryOp (.UnaryOp "not" (.MethodCall "line" "contains" ["x"]))
        "==" (.Literal (.bool true))) ctx = .ok (.bool true) := by
  refine ⟨rfl, rfl, ?_⟩
  intro ctx h
  simp [evaluate_where, evaluateNode, h, applyBinOp, pyEq, numView, pyTruthy]

/-- Witness for C6 (amended) at a concrete context whose line `hello` does
not contain `x`. -/
theorem c6_not_precedence_amended_witness :
    evaluate_where (.BinaryOp (.UnaryOp "not" (.MethodCall "line" "contains" ["x"]))
      "==" (.Literal (.bool true))) ⟨⟨1, "hello"⟩, []⟩ = .ok (.bool true) :=
  c6_not_precedence_amended.2.2 ⟨⟨1, "hello"⟩, []⟩ rfl

/-- Counterexample to C6 as stated: the clause does not parse successfully
at all — it fails with `Unexpected identifier: true`. -/
theorem c6_counterexample :
    parse_where_expression "not line.contains(\"x\") == true" =
      .error "Unexpected identifier: true" :=
  rfl

/-- `Parser.parse` rejects any leftover token after the top-level
expression with the source message naming that token's text. -/
theorem parse_leftover (ts : List Token) (ast : ASTNode) (p : Nat)
    (h : parseOrExpr ts (parserFuel ts) 0 = .ok (ast, p)) (hlt : p < ts.length) :
    parse ts = .error ("Unexpected token after expression: " ++ (ts.get ⟨p, hlt⟩).value) := by
  unfold parse
  rw [h]
  exact dif_pos hlt

/-- Claim C8: comparison is not chainable.  Parsing
`line.length > 1 > 2` fails with `Unexpected token after expression: >`,
and in general, after the completed comparison `line.length > 1`, any
second comparator token (whatever follows it) is left unconsumed by
`parse_cmp_expr` and rejected by `parse` as a leftover token. -/
theorem c8_no_chained_comparison :
    parse_where_expression "line.length > 1 > 2" =
      .error "Unexpected token after expression: >" ∧
    ∀ (t : Token) (rest : List Token), isCmpType t.type = true →
      parse ([⟨"IDENT", "line", 0⟩, ⟨"DOT", ".", 4⟩, ⟨"IDENT", "length", 5⟩,
        ⟨"GT", ">", 12⟩, ⟨"NUMBER", "1", 14⟩] ++ t :: rest) =
        .error ("Unexpected token after expression: " ++ t.value) := by
  refine ⟨rfl, ?_⟩
  intro t rest h
  obtain ⟨ty, v, p⟩ := t
  simp only [isCmpType, Bool.or_eq_true, decide_eq_true_eq] at h
  rcases h with ((((h | h) | h) | h) | h) | h <;> subst h
  · have hpo : parseOrExpr ([⟨"IDENT", "line", 0⟩, ⟨"DOT", ".", 4⟩, ⟨"IDENT", "length", 5⟩,
          ⟨"GT", ">", 12⟩, ⟨"NUMBER", "1", 14⟩] ++ ⟨"GT", v, p⟩ :: rest)
        (parserFuel ([⟨"IDENT", "line", 0⟩, ⟨"DOT", ".", 4⟩, ⟨"IDENT", "length", 5⟩,
          ⟨"GT", ">", 12⟩, ⟨"NUMBER", "1", 14⟩] ++ ⟨"GT", v, p⟩ :: rest)) 0 =
        .ok (.BinaryOp (.Attribute "line" "length") ">" (.Literal (.int 1)), 5) := rfl
    exact parse_leftover _ _ 5 hpo
      (by simp only [List.length_append, List.length_cons]; omega)
  · have hpo : parseOrExpr ([⟨"IDENT", "line", 0⟩, ⟨"DOT", ".", 4⟩, ⟨"IDENT", "length", 5⟩,
          ⟨"GT", ">", 12⟩, ⟨"NUMBER", "1", 14⟩] ++ ⟨"LT", v, p⟩ :: rest)
        (parserFuel ([⟨"IDENT", "line", 0⟩, ⟨"DOT", ".", 4⟩, ⟨"IDENT", "length", 5⟩,
          ⟨"GT", ">", 12⟩, ⟨"NUMBER", "1", 14⟩] ++ ⟨"LT", v, p⟩ :: rest)) 0 =
        .ok (.BinaryOp (.Attribute "line" "length") ">" (.Literal (.int 1)), 5) := rfl
    exact parse_leftover _ _ 5 hpo
      (by simp only [List.length_append, List.length_cons]; omega)
  · have hpo : parseOrExpr ([⟨"IDENT", "line", 0⟩, ⟨"DOT", ".", 4⟩, ⟨"IDENT", "length", 5⟩,
          ⟨"GT", ">", 12⟩, ⟨"NUMBER", "1", 14⟩] ++ ⟨"GTE", v, p⟩ :: rest)
        (parserFuel ([⟨"IDENT", "line", 0⟩, ⟨"DOT", ".", 4⟩, ⟨"IDENT", "length", 5⟩,
          ⟨"GT", ">", 12⟩, ⟨"NUMBER", "1", 14⟩] ++ ⟨"GTE", v, p⟩ :: rest)) 0 =
        .ok (.BinaryOp (.Attribute "line" "length") ">" (.Literal (.int 1)), 5) := rfl
    exact parse_leftover _ _ 5 hpo
      (by simp only [List.length_append, List.length_cons]; omega)
  · have hpo : parseOrExpr ([⟨"IDENT", "line", 0⟩, ⟨"DOT", ".", 4⟩, ⟨"IDENT", "length", 5⟩,
          ⟨"GT", ">", 12⟩, ⟨"NUMBER", "1", 14⟩] ++ ⟨"LTE", v, p⟩ :: rest)
        (parserFuel ([⟨"IDENT", "line", 0⟩, ⟨"DOT", ".", 4⟩, ⟨"IDENT", "length", 5⟩,
          ⟨"GT", ">", 12⟩, ⟨"NUMBER", "1", 14⟩] ++ ⟨"LTE", v, p⟩ :: rest)) 0 =
        .ok (.BinaryOp (.Attribute "line" "length") ">" (.Literal (.int 1)), 5) := rfl
    exact parse_leftover _ _ 5 hpo
      (by simp only [List.length_append, List.length_cons]; omega)
  · have hpo : parseOrExpr ([⟨"IDENT", "line", 0⟩, ⟨"DOT", ".", 4⟩, ⟨"IDENT", "length", 5⟩,
          ⟨"GT", ">", 12⟩, ⟨"NUMBER", "1", 14⟩] ++ ⟨"EQ", v, p⟩ :: rest)
        (parserFuel ([⟨"IDENT", "line", 0⟩, ⟨"DOT", ".", 4⟩, ⟨"IDENT", "length", 5⟩,
          ⟨"GT", ">", 12⟩, ⟨"NUMBER", "1", 14⟩] ++ ⟨"EQ", v, p⟩ :: rest)) 0 =
        .ok (.BinaryOp (.Attribute "line" "length") ">" (.Literal (.int 1)), 5) := rfl
    exact parse_leftover _ _ 5 hpo
      (by simp only [List.length_append, List.length_cons]; omega)
  · have hpo : parseOrExpr ([⟨"IDENT", "line", 0⟩, ⟨"DOT", ".", 4⟩, ⟨"IDENT", "length", 5⟩,
          ⟨"GT", ">", 12⟩, ⟨"NUMBER", "1", 14⟩] ++ ⟨"NEQ", v, p⟩ :: rest)
        (parserFuel ([⟨"IDENT", "line", 0⟩, ⟨"DOT", ".", 4⟩, ⟨"IDENT", "length", 5⟩,
          ⟨"GT", ">", 12⟩, ⟨"NUMBER", "1", 14⟩] ++ ⟨"NEQ", v, p⟩ :: rest)) 0 =
        .ok (.BinaryOp (.Attribute "line" "length") ">" (.Literal (.int 1)), 5) := rfl
    exact parse_leftover _ _ 5 hpo
      (by simp only [List.length_append, List.length_cons]; omega)

/-- Witness for C8 with the concrete second comparator `>` followed by a
number. -/
theorem c8_no_chained_comparison_witness :
    parse ([⟨"IDENT", "line", 0⟩, ⟨"DOT", ".", 4⟩, ⟨"IDENT", "length", 5⟩,
      ⟨"GT", ">", 12⟩, ⟨"NUMBER", "1", 14⟩] ++ ⟨"GT", ">", 16⟩ :: [⟨"NUMBER", "2", 18⟩]) =
      .error "Unexpected token after expression: >" :=
  c8_no_chained_comparison.2 ⟨"GT", ">", 16⟩ [⟨"NUMBER", "2", 18⟩] rfl

/-- Claim C9: `and`/`or` evaluate both operands eagerly — if either operand
fails, the whole evaluation fails even when the other operand's truthiness
alone would determine the answer — and otherwise the result is the
conjunction (disjunction) of the operands' truthiness, where truthiness is
the identity on booleans, nonzero on integers and non-empty on text. -/
theorem c9_logical_ops_eager (ctx : MatchContext) (l r : ASTNode) :
    ((∀ e, evaluateNode l ctx = .error e →
      evaluate_where (.BinaryOp l "and" r) ctx = .error ("Evaluation error: " ++ e) ∧
      evaluate_where (.BinaryOp l "or" r) ctx = .error ("Evaluation error: " ++ e)) ∧
     (∀ lv e, evaluateNode l ctx = .ok lv → evaluateNode r ctx = .error e →
      evaluate_where (.BinaryOp l "and" r) ctx = .error ("Evaluation error: " ++ e) ∧
      evaluate_where (.BinaryOp l "or" r) ctx = .error ("Evaluation error: " ++ e)) ∧
     (∀ lv rv, evaluateNode l ctx = .ok lv → evaluateNode r ctx = .ok rv →
      evaluate_where (.BinaryOp l "and" r) ctx = .ok (.bool (pyTruthy lv && pyTruthy rv)) ∧
      evaluate_where (.BinaryOp l "or" r) ctx = .ok (.bool (pyTruthy lv || pyTruthy rv)))) ∧
    (∀ b, pyTruthy (.bool b) = b) ∧
    (∀ n : Int, (pyTruthy (.int n) = true ↔ n ≠ 0)) ∧
    (∀ s : String, (pyTruthy (.str s) = true ↔ s ≠ "")) := by
  refine ⟨⟨?_, ?_, ?_⟩, fun b => rfl, fun n => by simp [pyTruthy],
    fun s => by simp [pyTruthy]⟩
  · intro e he
    refine ⟨?_, ?_⟩ <;> simp [evaluate_where, evaluateNode, he]
  · intro lv e hl hr
    refine ⟨?_, ?_⟩ <;> simp [evaluate_where, evaluateNode, hl, hr]
  · intro lv rv hl hr
    refine ⟨?_, ?_⟩ <;> simp [evaluate_where, evaluateNode, hl, hr, applyBinOp]

/-- Witness for C9: `true or <failing operand>` still fails — the right
operand is evaluated even though the left alone would decide an `or`. -/
theorem c9_logical_ops_eager_witness :
    evaluate_where (.BinaryOp (.Literal (.bool true)) "or" (.Attribute "x" "y"))
      ⟨⟨1, ""⟩, []⟩ = .error "Evaluation error: Unknown object: x" :=
  ((c9_logical_ops_eager ⟨⟨1, ""⟩, []⟩ (.Literal (.bool true))
    (.Attribute "x" "y")).1.2.1 (.bool true) "Unknown object: x" rfl rfl).2

/-- Claim C10: the parser turns every STRING token into the text obtained
by dropping exactly the first and last character and then textually
replacing the two-character sequences backslash-doublequote and
backslash-singlequote by the bare quote characters — in string literals,
method-call arguments and `group(...)` names alike — and no other
backslash sequence is interpreted: content without those two sequences is
preserved verbatim. -/
theorem c10_string_unescape :
    (∀ v p, parse [⟨"STRING", v, p⟩] = .ok (.Literal (.str (pyUnescape v)))) ∧
    (∀ obj mem v p1 p2 p3 p4 p5 p6,
      parse [⟨"IDENT", obj, p1⟩, ⟨"DOT", ".", p2⟩, ⟨"IDENT", mem, p3⟩,
        ⟨"LPAREN", "(", p4⟩, ⟨"STRING", v, p5⟩, ⟨"RPAREN", ")", p6⟩] =
        .ok (.MethodCall obj mem [pyUnescape v])) ∧
    (∀ v p1 p2 p3 p4,
      parse [⟨"IDENT", "group", p1⟩, ⟨"LPAREN", "(", p2⟩, ⟨"STRING", v, p3⟩,
        ⟨"RPAREN", ")", p4⟩] = .ok (.GroupAccess (pyUnescape v))) ∧
    (∀ cs : List Char, hasPair bslash '"' cs = false → hasPair bslash squote cs = false →
      pyUnescape (String.mk ('"' :: cs ++ ['"'])) = String.mk cs) := by
  refine ⟨fun v p => rfl, fun obj mem v p1 p2 p3 p4 p5 p6 => rfl,
    fun v p1 p2 p3 p4 => rfl, ?_⟩
  intro cs h1 h2
  have hstrip : ((String.mk ('"' :: cs ++ ['"'])).data.drop 1).dropLast = cs := by
    simp
  unfold pyUnescape
  rw [hstrip, replaceEsc_no_pair '"' cs h1, replaceEsc_no_pair squote cs h2]

/-- Witness for C10 at the concrete content `a\nb` (backslash preserved
verbatim, since it forms neither escape sequence). -/
theorem c10_string_unescape_witness :
    pyUnescape (String.mk ('"' :: "a\\nb".data ++ ['"'])) = String.mk "a\\nb".data :=
  c10_string_unescape.2.2.2 "a\\nb".data rfl rfl

end BsceMgrep
